import Mathlib

/-!
Verification of `src/public/logo_coverter.py` (qsafevault).

The script converts a PNG file sitting next to the script into an ICO file
with one embedded 256x256 image, using the PIL image library.  Its whole
body is: `file_name = 'logo.png'`;
`current_dir = os.path.dirname(os.path.abspath(__file__))`;
`png_path = os.path.join(current_dir, file_name)`;
`ico_path = os.path.join(current_dir, os.path.splitext(file_name)[0] + '.ico')`;
then `with Image.open(png_path) as img:` it runs
`img.save(ico_path, format='ICO', sizes=[(256, 256)])`, and finally prints
`f"Converted '{file_name}' to ICO format at '{ico_path}'"`.

We shallowly embed the script as a function over an explicit world state
(filesystem, writability, standard output, open file handles).  The Python
standard library path helpers (`os.path.dirname`, `os.path.abspath`,
`os.path.join`, `os.path.splitext`) are embedded faithfully for the POSIX
paths the script manipulates.  The PIL image library is not part of the
repository; its open/save behaviour is modelled from the spec, with each
modelled definition documented as such.
-/

namespace LogoConverter

/-- Bytes of a file on disk. -/
abbrev Bytes := List Nat

/-- Modelled from the spec: the only entity is the decoded image held
transiently in memory — a bitmap with a width, a height and pixel data. -/
structure Img where
  width : Nat
  height : Nat
  pixels : List Nat
deriving DecidableEq, Repr

/-- Header tag our modelled codec uses to recognise PNG byte streams
(stand-in for the PNG magic number sniffed by `PIL.Image.open`). -/
def pngTag : List Nat := [137, 80]

/-- Header tag our modelled codec uses to recognise JPEG byte streams
(stand-in for the JPEG magic number sniffed by `PIL.Image.open`). -/
def jpegTag : List Nat := [255, 216]

/-- Whether a byte stream carries the PNG header tag. -/
def isPngEncoded : Bytes → Bool
  | t1 :: t2 :: _ => [t1, t2] = pngTag
  | _ => false

/-- Modelled from the spec: `PIL.Image.open` decodes any format the library
supports by sniffing the file header; it does not require the file to match
its extension.  We model two supported formats (PNG and JPEG), each encoded
as a two-byte header tag followed by width, height and pixel bytes.  A
stream with an unknown header, a zero dimension, or too few bytes is not a
decodable image. -/
def decode : Bytes → Option Img
  | t1 :: t2 :: wd :: ht :: px =>
    if ([t1, t2] = pngTag ∨ [t1, t2] = jpegTag) ∧ 0 < wd ∧ 0 < ht then
      some ⟨wd, ht, px⟩
    else none
  | _ => none

/-- Modelled from the spec: resampling an image to a requested size yields an
image with exactly the requested dimensions; the spec constrains nothing
about the resampled pixel content, which we keep as a deterministic function
of the source pixels. -/
def resize (img : Img) (sz : Nat × Nat) : Img :=
  ⟨sz.1, sz.2, img.pixels⟩

/-- Serialisation of one embedded image resource inside an ICO container:
width, height, pixel count, then the pixels. -/
def encodeEntry (img : Img) : Bytes :=
  img.width :: img.height :: img.pixels.length :: img.pixels

/-- Modelled from the spec: the ICO container format — a header tag, the
number of embedded image resources, then the serialised resources. -/
def encodeICO (entries : List Img) : Bytes :=
  0 :: 1 :: entries.length :: entries.flatMap encodeEntry

/-- Parse `n` serialised image resources from a byte stream, requiring the
stream to be consumed exactly. -/
def decodeEntries : Nat → Bytes → Option (List Img)
  | 0, b => if b = [] then some [] else none
  | n + 1, wd :: ht :: len :: rest =>
    if len ≤ rest.length then
      (decodeEntries n (rest.drop len)).map (fun imgs => ⟨wd, ht, rest.take len⟩ :: imgs)
    else none
  | _ + 1, _ => none

/-- Decoder for the modelled ICO container: checks the header tag and parses
the advertised number of embedded image resources. -/
def decodeICO : Bytes → Option (List Img)
  | 0 :: 1 :: n :: rest => decodeEntries n rest
  | _ => none

/-- The world the script acts on: the filesystem (bytes at each path),
which paths are writable, the lines printed so far, and the file handles
currently held open. -/
structure World where
  fs : String → Option Bytes
  writable : String → Bool
  stdout : List String
  openHandles : List String

/-- Errors the script can propagate: `FileNotFoundError` from `open`,
`UnidentifiedImageError` from PIL's header sniffing, and an `OSError` from
writing the destination. -/
inductive RunError where
  | fileNotFound : String → RunError
  | decodeError : String → RunError
  | writeError : String → RunError
deriving DecidableEq, Repr

/-- Whether a POSIX path is absolute (`os.path.isabs`). -/
def isAbsolute (p : String) : Bool := p.data.head? = some '/'

/-- Embedding of `os.path.join` for the shapes the script uses: directory
plus a bare file name. -/
def joinPath (dir name : String) : String := dir ++ "/" ++ name

/-- Embedding of `os.path.abspath`: an absolute path is returned unchanged,
a relative one is resolved against the current working directory. -/
def abspath (cwd p : String) : String :=
  if isAbsolute p then p else joinPath cwd p

/-- Embedding of `os.path.dirname`: everything before the last `/`. -/
def dirname (p : String) : String :=
  if p.data.contains '/' then
    String.mk ((p.data.reverse.dropWhile (fun c => c ≠ '/')).tail.reverse)
  else ""

/-- Embedding of `os.path.splitext(name)[0]`: everything before the last `.`,
or the whole name when it has no dot. -/
def splitextRoot (s : String) : String :=
  if s.data.contains '.' then
    String.mk ((s.data.reverse.dropWhile (fun c => c ≠ '.')).tail.reverse)
  else s

/-- The literal constant `file_name = 'logo.png'` of the script. -/
def file_name : String := "logo.png"

/-- The script's `current_dir = os.path.dirname(os.path.abspath(__file__))`:
`cwd` is the process's current working directory, `scriptFile` the value of
`__file__`. -/
def current_dir (cwd scriptFile : String) : String :=
  dirname (abspath cwd scriptFile)

/-- The script's `png_path = os.path.join(current_dir, file_name)`. -/
def png_path (d : String) : String := joinPath d file_name

/-- The script's
`ico_path = os.path.join(current_dir, os.path.splitext(file_name)[0] + '.ico')`. -/
def ico_path (d : String) : String := joinPath d (splitextRoot file_name ++ ".ico")

/-- The confirmation line
`f"Converted '{file_name}' to ICO format at '{ico_path}'"`. -/
def convMessage (p : String) : String :=
  "Converted '" ++ file_name ++ "' to ICO format at '" ++ p ++ "'"

/-- Embedding of the whole script run.  `Image.open` looks the source path
up in the filesystem, acquires a file handle and sniffs the header
(releasing the handle again before propagating a decode failure — modelled
from the spec's scoped-acquisition guarantee); the `with` block's body saves
the image to `ico_path` in ICO format with one requested size, and the
block's exit releases the handle on both the success and the failure path;
the final `print` appends the confirmation line to standard output.  Any
error is returned together with the world at the moment it was raised. -/
def run (cwd scriptFile : String) (w : World) : Except RunError Unit × World :=
  let d := current_dir cwd scriptFile
  let png := png_path d
  let ico := ico_path d
  match w.fs png with
  | none => (.error (.fileNotFound png), w)
  | some bytes =>
    let wOpen : World := { w with openHandles := png :: w.openHandles }
    match decode bytes with
    | none => (.error (.decodeError png), { wOpen with openHandles := w.openHandles })
    | some img =>
      if wOpen.writable ico then
        let w2 : World :=
          { wOpen with
            fs := fun q =>
              if q = ico then some (encodeICO ([(256, 256)].map (resize img)))
              else wOpen.fs q }
        let w3 : World := { w2 with openHandles := w.openHandles }
        (.ok (), { w3 with stdout := w3.stdout ++ [convMessage ico] })
      else
        (.error (.writeError ico), { wOpen with openHandles := w.openHandles })

/-- The exact bytes the script writes at `ico_path`: the ICO container with
one entry, the source image resampled to 256x256. -/
def savedBytes (img : Img) : Bytes := encodeICO ([(256, 256)].map (resize img))

/-- A concrete current working directory, used to exercise the theorems. -/
def cwd0 : String := "/c"

/-- A concrete absolute `__file__` value, used to exercise the theorems. -/
def sf0 : String := "/s/logo_coverter.py"

/-- A filesystem holding exactly one file, `/s/logo.png`, with the given
bytes. -/
def fsWith (b : Bytes) : String → Option Bytes :=
  fun q => if q = "/s/logo.png" then some b else none

/-- A world whose filesystem holds exactly `/s/logo.png` with the given
bytes, everything writable, nothing printed, no open handles. -/
def worldWith (b : Bytes) : World :=
  { fs := fsWith b, writable := fun _ => true, stdout := [], openHandles := [] }

/-- A world with an empty filesystem. -/
def emptyWorld : World :=
  { fs := fun _ => none, writable := fun _ => true, stdout := [], openHandles := [] }

/-- Bytes of a small 3x2 image in the modelled PNG format. -/
def pngBytes : Bytes := [137, 80, 3, 2, 9, 9]

/-- Bytes of a small 2x2 image in the modelled JPEG format. -/
def jpgBytes : Bytes := [255, 216, 2, 2, 1, 2, 3, 4]

/-- Bytes that no supported format can decode. -/
def badBytes : Bytes := [0, 1, 2]

/-- Round trip of the entry parser over the entry serialiser. -/
theorem decodeEntries_encode (es : List Img) :
    decodeEntries es.length (es.flatMap encodeEntry) = some es := by
  induction es with
  | nil => rfl
  | cons i es ih =>
    simp only [List.flatMap_cons, List.length_cons, encodeEntry, List.cons_append,
      decodeEntries]
    rw [if_pos]
    · rw [List.append_eq, List.take_left, List.drop_left]
      rw [show (List.map encodeEntry es).flatten = es.flatMap encodeEntry from rfl, ih]
      rfl
    · simp [List.length_append]

/-- Decoding the modelled ICO container recovers exactly the encoded
entries. -/
theorem decodeICO_encodeICO (es : List Img) :
    decodeICO (encodeICO es) = some es := by
  simp only [encodeICO, decodeICO]
  exact decodeEntries_encode es

/-- The source path and the destination path the script derives from a
directory are always distinct. -/
theorem png_ne_ico (d : String) : png_path d ≠ ico_path d := by
  intro h
  have hico : splitextRoot file_name ++ ".ico" = "logo.ico" := by decide
  rw [png_path, ico_path, hico, joinPath, joinPath] at h
  have hd := congrArg String.data h
  simp only [String.data_append] at hd
  have := List.append_cancel_left hd
  exact absurd (congrArg String.mk this) (by decide)

/-- Behaviour of `run` when the source file is missing: the open fails and
the world is left untouched. -/
theorem run_eq_missing (cwd sf : String) (w : World)
    (hfs : w.fs (png_path (current_dir cwd sf)) = none) :
    run cwd sf w =
      (.error (.fileNotFound (png_path (current_dir cwd sf))), w) := by
  simp only [run, hfs]

/-- Behaviour of `run` when the source file exists but does not decode: the
error propagates and the world is left untouched. -/
theorem run_eq_undecodable (cwd sf : String) (w : World) (b : Bytes)
    (hfs : w.fs (png_path (current_dir cwd sf)) = some b)
    (hdec : decode b = none) :
    run cwd sf w =
      (.error (.decodeError (png_path (current_dir cwd sf))), w) := by
  simp only [run, hfs, hdec]

/-- Behaviour of `run` when the destination is not writable: the save fails
and the world is left untouched. -/
theorem run_eq_unwritable (cwd sf : String) (w : World) (b : Bytes) (img : Img)
    (hfs : w.fs (png_path (current_dir cwd sf)) = some b)
    (hdec : decode b = some img)
    (hw : w.writable (ico_path (current_dir cwd sf)) = false) :
    run cwd sf w =
      (.error (.writeError (ico_path (current_dir cwd sf))), w) := by
  simp only [run, hfs, hdec, hw]
  rfl

/-- Behaviour of `run` on the success path: the ICO bytes are written at the
derived destination and the confirmation line is printed. -/
theorem run_eq_success (cwd sf : String) (w : World) (b : Bytes) (img : Img)
    (hfs : w.fs (png_path (current_dir cwd sf)) = some b)
    (hdec : decode b = some img)
    (hw : w.writable (ico_path (current_dir cwd sf)) = true) :
    run cwd sf w =
      (.ok (),
        { w with
          fs := fun q =>
            if q = ico_path (current_dir cwd sf) then some (savedBytes img)
            else w.fs q,
          stdout := w.stdout ++ [convMessage (ico_path (current_dir cwd sf))] }) := by
  simp only [run, hfs, hdec, hw, savedBytes]
  rfl

/-- C1: for every run that completes without raising an error, a valid ICO
file exists at the derived output path and, when decoded, it contains
exactly one embedded image resource whose dimensions are 256x256, regardless
of the dimensions of the source image. -/
theorem run_success_valid_ico (cwd sf : String) (w r : World)
    (h : run cwd sf w = (Except.ok (), r)) :
    ∃ bs img, r.fs (ico_path (current_dir cwd sf)) = some bs ∧
      decodeICO bs = some [img] ∧ img.width = 256 ∧ img.height = 256 := by
  rcases hfs : w.fs (png_path (current_dir cwd sf)) with _ | b
  · rw [run_eq_missing cwd sf w hfs] at h
    simp at h
  rcases hdec : decode b with _ | img
  · rw [run_eq_undecodable cwd sf w b hfs hdec] at h
    simp at h
  cases hw : w.writable (ico_path (current_dir cwd sf)) with
  | false =>
    rw [run_eq_unwritable cwd sf w b img hfs hdec hw] at h
    simp at h
  | true =>
    rw [run_eq_success cwd sf w b img hfs hdec hw] at h
    injection h with h1 h2
    refine ⟨savedBytes img, resize img (256, 256), ?_, ?_, rfl, rfl⟩
    · rw [← h2]
      simp
    · exact decodeICO_encodeICO [resize img (256, 256)]

/-- Witness for C1 on a concrete 3x2 source image. -/
theorem run_success_valid_ico_witness :
    run cwd0 sf0 (worldWith pngBytes) = (Except.ok (), (run cwd0 sf0 (worldWith pngBytes)).2) ∧
    (∃ bs img, (run cwd0 sf0 (worldWith pngBytes)).2.fs (ico_path (current_dir cwd0 sf0)) = some bs ∧
      decodeICO bs = some [img] ∧ img.width = 256 ∧ img.height = 256) :=
  ⟨by rfl, run_success_valid_ico cwd0 sf0 (worldWith pngBytes) _ (by rfl)⟩

/-- C2: if the file at the input path exists but is not a valid decodable
image, the whole operation fails with a propagated error, and the filesystem
state at the output path is unchanged on this error. -/
theorem run_undecodable_input_no_write (cwd sf : String) (w : World) (b : Bytes)
    (hfs : w.fs (png_path (current_dir cwd sf)) = some b)
    (hdec : decode b = none) :
    run cwd sf w = (Except.error (RunError.decodeError (png_path (current_dir cwd sf))), w) ∧
    (run cwd sf w).2.fs (ico_path (current_dir cwd sf)) = w.fs (ico_path (current_dir cwd sf)) := by
  have h := run_eq_undecodable cwd sf w b hfs hdec
  exact ⟨h, by rw [h]⟩

/-- Witness for C2 on concrete undecodable bytes. -/
theorem run_undecodable_input_no_write_witness :
    (worldWith badBytes).fs (png_path (current_dir cwd0 sf0)) = some badBytes ∧
    decode badBytes = none ∧
    (run cwd0 sf0 (worldWith badBytes) =
       (Except.error (RunError.decodeError (png_path (current_dir cwd0 sf0))), worldWith badBytes) ∧
     (run cwd0 sf0 (worldWith badBytes)).2.fs (ico_path (current_dir cwd0 sf0)) =
       (worldWith badBytes).fs (ico_path (current_dir cwd0 sf0))) :=
  ⟨by decide, by decide,
    run_undecodable_input_no_write cwd0 sf0 (worldWith badBytes) badBytes (by decide) (by decide)⟩

/-- C3: if no file exists at the input path, the operation fails before any
output is produced: no file is created at the output path and the
confirmation line is not printed. -/
theorem run_missing_input_no_output (cwd sf : String) (w : World)
    (hfs : w.fs (png_path (current_dir cwd sf)) = none) :
    run cwd sf w = (Except.error (RunError.fileNotFound (png_path (current_dir cwd sf))), w) ∧
    (run cwd sf w).2.fs (ico_path (current_dir cwd sf)) = w.fs (ico_path (current_dir cwd sf)) ∧
    (run cwd sf w).2.stdout = w.stdout := by
  have h := run_eq_missing cwd sf w hfs
  exact ⟨h, by rw [h], by rw [h]⟩

/-- Witness for C3 on the empty filesystem. -/
theorem run_missing_input_no_output_witness :
    emptyWorld.fs (png_path (current_dir cwd0 sf0)) = none ∧
    (run cwd0 sf0 emptyWorld =
       (Except.error (RunError.fileNotFound (png_path (current_dir cwd0 sf0))), emptyWorld) ∧
     (run cwd0 sf0 emptyWorld).2.fs (ico_path (current_dir cwd0 sf0)) =
       emptyWorld.fs (ico_path (current_dir cwd0 sf0)) ∧
     (run cwd0 sf0 emptyWorld).2.stdout = emptyWorld.stdout) :=
  ⟨by decide, run_missing_input_no_output cwd0 sf0 emptyWorld (by decide)⟩

/-- C4: for every run with an absolute `__file__`, the input path is the
directory containing the script joined with the literal `logo.png`, and the
output path is that same directory joined with `logo.ico`; neither path
depends on the process's current working directory. -/
theorem run_paths_cwd_independent (cwd cwd' sf : String) (habs : isAbsolute sf = true) :
    current_dir cwd sf = current_dir cwd' sf ∧
    png_path (current_dir cwd sf) = dirname sf ++ "/" ++ "logo.png" ∧
    ico_path (current_dir cwd sf) = dirname sf ++ "/" ++ "logo.ico" := by
  have ha : ∀ c : String, current_dir c sf = dirname sf := by
    intro c
    rw [current_dir, abspath, if_pos habs]
  refine ⟨by rw [ha, ha], ?_, ?_⟩
  · rw [ha]
    rfl
  · rw [ha, ico_path, joinPath]
    have hname : splitextRoot file_name ++ ".ico" = "logo.ico" := by decide
    rw [hname]

/-- Witness for C4 on a concrete absolute script path and two different
working directories. -/
theorem run_paths_cwd_independent_witness :
    isAbsolute sf0 = true ∧
    (current_dir "/a" sf0 = current_dir "/b" sf0 ∧
     png_path (current_dir "/a" sf0) = dirname sf0 ++ "/" ++ "logo.png" ∧
     ico_path (current_dir "/a" sf0) = dirname sf0 ++ "/" ++ "logo.ico") :=
  ⟨by decide, run_paths_cwd_independent "/a" "/b" sf0 (by decide)⟩

/-- C5: on success the script appends to standard output exactly one line,
equal to `Converted 'logo.png' to ICO format at '<P>'` where `<P>` is the
resolved output path, and this is the only console output of the run. -/
theorem run_success_stdout_line (cwd sf : String) (w r : World)
    (h : run cwd sf w = (Except.ok (), r)) :
    r.stdout = w.stdout ++ [convMessage (ico_path (current_dir cwd sf))] ∧
    convMessage (ico_path (current_dir cwd sf)) =
      "Converted 'logo.png' to ICO format at '" ++ ico_path (current_dir cwd sf) ++ "'" := by
  constructor
  · rcases hfs : w.fs (png_path (current_dir cwd sf)) with _ | b
    · rw [run_eq_missing cwd sf w hfs] at h
      simp at h
    rcases hdec : decode b with _ | img
    · rw [run_eq_undecodable cwd sf w b hfs hdec] at h
      simp at h
    cases hw : w.writable (ico_path (current_dir cwd sf)) with
    | false =>
      rw [run_eq_unwritable cwd sf w b img hfs hdec hw] at h
      simp at h
    | true =>
      rw [run_eq_success cwd sf w b img hfs hdec hw] at h
      injection h with h1 h2
      rw [← h2]
  · have hpre : ("Converted '" ++ file_name) ++ "' to ICO format at '" =
        "Converted 'logo.png' to ICO format at '" := by decide
    simp only [convMessage]
    rw [← hpre]

/-- Witness for C5 on a concrete successful run with empty initial
standard output. -/
theorem run_success_stdout_line_witness :
    run cwd0 sf0 (worldWith pngBytes) = (Except.ok (), (run cwd0 sf0 (worldWith pngBytes)).2) ∧
    ((run cwd0 sf0 (worldWith pngBytes)).2.stdout =
       (worldWith pngBytes).stdout ++ [convMessage (ico_path (current_dir cwd0 sf0))] ∧
     convMessage (ico_path (current_dir cwd0 sf0)) =
       "Converted 'logo.png' to ICO format at '" ++ ico_path (current_dir cwd0 sf0) ++ "'") :=
  ⟨by rfl, run_success_stdout_line cwd0 sf0 (worldWith pngBytes) _ (by rfl)⟩

/-- C6: running the conversion twice on an identical, unchanged input file
produces byte-for-byte identical output: the second run also succeeds and
leaves the filesystem exactly as the first run left it. -/
theorem run_twice_idempotent (cwd sf : String) (w w1 : World)
    (h : run cwd sf w = (Except.ok (), w1)) :
    ∃ w2, run cwd sf w1 = (Except.ok (), w2) ∧ w2.fs = w1.fs := by
  rcases hfs : w.fs (png_path (current_dir cwd sf)) with _ | b
  · rw [run_eq_missing cwd sf w hfs] at h
    simp at h
  rcases hdec : decode b with _ | img
  · rw [run_eq_undecodable cwd sf w b hfs hdec] at h
    simp at h
  cases hw : w.writable (ico_path (current_dir cwd sf)) with
  | false =>
    rw [run_eq_unwritable cwd sf w b img hfs hdec hw] at h
    simp at h
  | true =>
    rw [run_eq_success cwd sf w b img hfs hdec hw] at h
    injection h with h1 h2
    subst h2
    have hfs1 :
        (if png_path (current_dir cwd sf) = ico_path (current_dir cwd sf) then
            some (savedBytes img)
          else w.fs (png_path (current_dir cwd sf))) = some b := by
      rw [if_neg (png_ne_ico (current_dir cwd sf))]
      exact hfs
    refine ⟨_, run_eq_success cwd sf _ b img hfs1 hdec hw, ?_⟩
    funext q
    by_cases hq : q = ico_path (current_dir cwd sf)
    · subst hq
      simp
    · simp [hq]

/-- Witness for C6 on a concrete successful first run. -/
theorem run_twice_idempotent_witness :
    run cwd0 sf0 (worldWith pngBytes) = (Except.ok (), (run cwd0 sf0 (worldWith pngBytes)).2) ∧
    (∃ w2, run cwd0 sf0 (run cwd0 sf0 (worldWith pngBytes)).2 = (Except.ok (), w2) ∧
      w2.fs = (run cwd0 sf0 (worldWith pngBytes)).2.fs) :=
  ⟨by rfl, run_twice_idempotent cwd0 sf0 (worldWith pngBytes) _ (by rfl)⟩

/-- C7: the source image is opened under scoped acquisition — on every exit
path of the conversion, success as well as decode or write failure, the set
of open file handles is exactly what it was before the run. -/
theorem run_releases_file_handles (cwd sf : String) (w : World) :
    (run cwd sf w).2.openHandles = w.openHandles := by
  rcases hfs : w.fs (png_path (current_dir cwd sf)) with _ | b
  · rw [run_eq_missing cwd sf w hfs]
  rcases hdec : decode b with _ | img
  · rw [run_eq_undecodable cwd sf w b hfs hdec]
  cases hw : w.writable (ico_path (current_dir cwd sf)) with
  | false => rw [run_eq_unwritable cwd sf w b img hfs hdec hw]
  | true => rw [run_eq_success cwd sf w b img hfs hdec hw]

/-- C8: every error raised during the conversion propagates unhandled to
the process boundary — the run ends in exactly the error of the failing
step (missing source, undecodable source, or unwritable destination), and
no recovery output is printed. -/
theorem run_error_unhandled_propagation (cwd sf : String) (w : World) (e : RunError)
    (h : (run cwd sf w).1 = Except.error e) :
    (run cwd sf w).2.stdout = w.stdout ∧
    (e = RunError.fileNotFound (png_path (current_dir cwd sf)) ∨
     e = RunError.decodeError (png_path (current_dir cwd sf)) ∨
     e = RunError.writeError (ico_path (current_dir cwd sf))) := by
  rcases hfs : w.fs (png_path (current_dir cwd sf)) with _ | b
  · rw [run_eq_missing cwd sf w hfs] at h ⊢
    simp at h
    exact ⟨rfl, Or.inl h.symm⟩
  rcases hdec : decode b with _ | img
  · rw [run_eq_undecodable cwd sf w b hfs hdec] at h ⊢
    simp at h
    exact ⟨rfl, Or.inr (Or.inl h.symm)⟩
  cases hw : w.writable (ico_path (current_dir cwd sf)) with
  | false =>
    rw [run_eq_unwritable cwd sf w b img hfs hdec hw] at h ⊢
    simp at h
    exact ⟨rfl, Or.inr (Or.inr h.symm)⟩
  | true =>
    rw [run_eq_success cwd sf w b img hfs hdec hw] at h
    simp at h

/-- Witness for C8 on the empty filesystem, whose run fails with a
file-not-found error. -/
theorem run_error_unhandled_propagation_witness :
    (run cwd0 sf0 emptyWorld).1 =
      Except.error (RunError.fileNotFound (png_path (current_dir cwd0 sf0))) ∧
    ((run cwd0 sf0 emptyWorld).2.stdout = emptyWorld.stdout ∧
     (RunError.fileNotFound (png_path (current_dir cwd0 sf0)) =
        RunError.fileNotFound (png_path (current_dir cwd0 sf0)) ∨
      RunError.fileNotFound (png_path (current_dir cwd0 sf0)) =
        RunError.decodeError (png_path (current_dir cwd0 sf0)) ∨
      RunError.fileNotFound (png_path (current_dir cwd0 sf0)) =
        RunError.writeError (ico_path (current_dir cwd0 sf0)))) :=
  ⟨by rfl, run_error_unhandled_propagation cwd0 sf0 emptyWorld _ (by rfl)⟩

/-- C9: the script's only side effects are writing at the derived output
path and printing at most the one confirmation line: every other filesystem
path — in particular the source file — is left untouched. -/
theorem run_frame_side_effects (cwd sf : String) (w : World) (q : String)
    (hq : q ≠ ico_path (current_dir cwd sf)) :
    (run cwd sf w).2.fs q = w.fs q ∧
    (run cwd sf w).2.fs (png_path (current_dir cwd sf)) = w.fs (png_path (current_dir cwd sf)) ∧
    ((run cwd sf w).2.stdout = w.stdout ∨
     (run cwd sf w).2.stdout = w.stdout ++ [convMessage (ico_path (current_dir cwd sf))]) := by
  rcases hfs : w.fs (png_path (current_dir cwd sf)) with _ | b
  · rw [run_eq_missing cwd sf w hfs]
    exact ⟨rfl, hfs, Or.inl rfl⟩
  rcases hdec : decode b with _ | img
  · rw [run_eq_undecodable cwd sf w b hfs hdec]
    exact ⟨rfl, hfs, Or.inl rfl⟩
  cases hw : w.writable (ico_path (current_dir cwd sf)) with
  | false =>
    rw [run_eq_unwritable cwd sf w b img hfs hdec hw]
    exact ⟨rfl, hfs, Or.inl rfl⟩
  | true =>
    rw [run_eq_success cwd sf w b img hfs hdec hw]
    refine ⟨?_, ?_, Or.inr rfl⟩
    · simp [hq]
    · simp [png_ne_ico (current_dir cwd sf), hfs]

/-- Witness for C9 on a concrete successful run and an unrelated path. -/
theorem run_frame_side_effects_witness :
    ("/s/other" : String) ≠ ico_path (current_dir cwd0 sf0) ∧
    ((run cwd0 sf0 (worldWith pngBytes)).2.fs "/s/other" = (worldWith pngBytes).fs "/s/other" ∧
     (run cwd0 sf0 (worldWith pngBytes)).2.fs (png_path (current_dir cwd0 sf0)) =
       (worldWith pngBytes).fs (png_path (current_dir cwd0 sf0)) ∧
     ((run cwd0 sf0 (worldWith pngBytes)).2.stdout = (worldWith pngBytes).stdout ∨
      (run cwd0 sf0 (worldWith pngBytes)).2.stdout =
        (worldWith pngBytes).stdout ++ [convMessage (ico_path (current_dir cwd0 sf0))])) :=
  ⟨by decide, run_frame_side_effects cwd0 sf0 (worldWith pngBytes) "/s/other" (by decide)⟩

/-- C10: the code never checks that the input file is actually PNG-encoded —
for every decodable file at the input path, here one that is explicitly not
PNG-encoded, the conversion succeeds and writes the ICO file. -/
theorem run_accepts_non_png_decodable (cwd sf : String) (w : World) (b : Bytes) (img : Img)
    ( _hpng : isPngEncoded b = false)
    (hfs : w.fs (png_path (current_dir cwd sf)) = some b)
    (hdec : decode b = some img)
    (hw : w.writable (ico_path (current_dir cwd sf)) = true) :
    (run cwd sf w).1 = Except.ok () ∧
    (run cwd sf w).2.fs (ico_path (current_dir cwd sf)) = some (savedBytes img) := by
  rw [run_eq_success cwd sf w b img hfs hdec hw]
  exact ⟨rfl, by simp⟩

/-- Witness for C10 on concrete JPEG-format bytes stored under the PNG
name. -/
theorem run_accepts_non_png_decodable_witness :
    isPngEncoded jpgBytes = false ∧
    (worldWith jpgBytes).fs (png_path (current_dir cwd0 sf0)) = some jpgBytes ∧
    decode jpgBytes = some ⟨2, 2, [1, 2, 3, 4]⟩ ∧
    (worldWith jpgBytes).writable (ico_path (current_dir cwd0 sf0)) = true ∧
    ((run cwd0 sf0 (worldWith jpgBytes)).1 = Except.ok () ∧
     (run cwd0 sf0 (worldWith jpgBytes)).2.fs (ico_path (current_dir cwd0 sf0)) =
       some (savedBytes ⟨2, 2, [1, 2, 3, 4]⟩)) :=
  ⟨by decide, by decide, by decide, by decide,
    run_accepts_non_png_decodable cwd0 sf0 (worldWith jpgBytes) jpgBytes ⟨2, 2, [1, 2, 3, 4]⟩
      (by decide) (by decide) (by decide) (by decide)⟩

end LogoConverter
